import Mathlib

/-!
Shallow embedding of `pkg/sql/instrumentation.go` (the statement
instrumentation helper of a distributed SQL engine).

The Go code is stateful and talks to external collaborators (tracing spans,
a statement-diagnostics registry, a bundle store, app statistics, telemetry,
and the client connection holding the statement result).  We embed it as
pure Lean functions:

* `InstrumentationHelper` mirrors the fields of Go's
  `instrumentationHelper` struct that the control flow reads or writes.
  Function-valued Go fields (`finishCollectionDiagnostics`,
  `withStatementTrace`) are modelled by a `Bool` recording whether the
  callback is non-nil; the callback invocation itself becomes an `Effect`.
  The tracing span pointer `sp` becomes a `Bool` (span present or not); the
  recorded `explain.Plan` pointer becomes `Option Unit` (plan recorded or
  not), since only its presence steers the control flow.

* The outcomes of external calls the code merely consumes (errors from
  `res.AddRow`, from `setExplainBundleResult`, from the per-flow trace
  analyzer, the result of the statement-statistics lookup, the output of
  `emitExplain`) are supplied as oracle fields of `SetupEnv` / `FinishEnv`.

* Every call the code makes to a collaborator is recorded, in program
  order, in a `List Effect`; theorems about "which calls happen" are
  statements about that list.

Errors are represented as `Option String` (`none` = Go `nil`); `Except
String α` models a Go call returning `(α, error)`.
-/

/-- Go `outputMode` (instrumentation.go lines 86-92). -/
inductive OutputMode where
  | unmodifiedOutput
  | explainAnalyzeDebugOutput
  | explainAnalyzePlanOutput
  deriving DecidableEq, Repr

/-- Go `phaseTimes` as used by `deterministicPhaseTimes`
(instrumentation.go lines 343-351).  Timestamps are integers in
microseconds (the code rounds every derived latency to the microsecond, so
nothing finer is observable in the output). -/
structure PhaseTimes where
  sessionQueryReceived : Int
  sessionStartParse : Int
  sessionEndParse : Int
  plannerStartLogicalPlan : Int
  plannerEndLogicalPlan : Int
  plannerStartExecStmt : Int
  plannerEndExecStmt : Int
  deriving DecidableEq, Repr

/-- The fixed table from instrumentation.go lines 343-351: offsets 0, 0, 1,
1, 11, 11, 111 microseconds from the zero time. -/
def deterministicPhaseTimes : PhaseTimes :=
  { sessionQueryReceived := 0
    sessionStartParse := 0
    sessionEndParse := 1
    plannerStartLogicalPlan := 1
    plannerEndLogicalPlan := 11
    plannerStartExecStmt := 11
    plannerEndExecStmt := 111 }

/-- Modelled from the spec (§4.3), the body of `phaseTimes.getPlanningLatency`
not being under src/: planning latency = end-logical-plan − start-parse. -/
def PhaseTimes.getPlanningLatency (pt : PhaseTimes) : Int :=
  pt.plannerEndLogicalPlan - pt.sessionStartParse

/-- Modelled from the spec (§4.3), the body of `phaseTimes.getRunLatency`
not being under src/: run latency = end-exec-stmt − start-exec-stmt. -/
def PhaseTimes.getRunLatency (pt : PhaseTimes) : Int :=
  pt.plannerEndExecStmt - pt.plannerStartExecStmt

/-- The fields of Go's `instrumentationHelper` that the embedded control
flow reads or writes (instrumentation.go lines 45-82). -/
structure InstrumentationHelper where
  outputMode : OutputMode
  fingerprint : String
  implicitTxn : Bool
  collectBundle : Bool
  discardRows : Bool
  diagRequestID : Nat
  /-- whether the Go `finishCollectionDiagnostics func()` field is non-nil -/
  finishCollectionDiagnostics : Bool
  /-- whether the Go `withStatementTrace` callback field is non-nil -/
  withStatementTrace : Bool
  /-- whether the Go `sp *tracing.Span` field is non-nil -/
  sp : Bool
  /-- the context saved by `Setup` (contexts are abstracted to `Nat`) -/
  origCtx : Nat
  savePlanForStats : Bool
  /-- whether the Go `explainPlan *explain.Plan` field is non-nil -/
  explainPlan : Option Unit
  deriving DecidableEq, Repr

/-- One collaborator call made by the helper, with the arguments the claims
talk about. -/
inductive Effect where
  /-- Call `ih.sp.Finish()`. -/
  | spanFinish
  /-- Call `ih.sp.GetRecording()`. -/
  | getRecording
  /-- Call `bundle.insert(ctx, fingerprint, ast, ..., diagRequestID)` where the
  bundle was built from the given plan string. -/
  | bundleInsert (fingerprint : String) (ast : String) (requestID : Nat)
      (planString : String)
  /-- Call `ih.finishCollectionDiagnostics()`. -/
  | finishCallback
  /-- Call `telemetry.Inc(sqltelemetry.StatementDiagnosticsCollectedCounter)`. -/
  | telemetryInc
  /-- Call `setExplainBundleResult(ctx, res, bundle, cfg)`. -/
  | setBundleResult
  /-- Call `ih.withStatementTrace(trace, stmtRawSQL)`. -/
  | statementTraceCallback (stmtRawSQL : String)
  /-- Call `res.ResetStmtType(...)`. -/
  | resetStmtType
  /-- Call `res.SetColumns(ctx, ...)`. -/
  | setColumns
  /-- Record a successful `res.AddRow(ctx, ...)` carrying the row's single string. -/
  | addRow (row : String)
  /-- Call `appStats.getStatsForStmt(fingerprint, implicitTxn, retErr, false)`. -/
  | statsLookup (fingerprint : String) (implicitTxn : Bool)
  /-- Record the call `stmtStats.mu.data.BytesSentOverNetwork.Record(1, bytes)`
  performed between `stmtStats.mu.Lock()` and `stmtStats.mu.Unlock()`. -/
  | statsRecord (fingerprint : String) (implicitTxn : Bool) (bytes : Int)
  deriving DecidableEq, Repr

/-- Oracle inputs consumed by `Setup`: the answers of the collaborators it
queries (instrumentation.go lines 105-147). -/
structure SetupEnv where
  /-- the first return of `stmtDiagnosticsRecorder.ShouldCollectDiagnostics` -/
  registryCollect : Bool
  /-- the second return of `ShouldCollectDiagnostics` -/
  registryRequestID : Nat
  /-- whether the `finishCollectionDiagnostics` callback returned by
  `ShouldCollectDiagnostics` is non-nil -/
  registryHasCallback : Bool
  /-- whether `cfg.TestingKnobs.WithStatementTrace` is non-nil -/
  knobWithStatementTrace : Bool
  /-- the result of `appStats.shouldSaveLogicalPlanDescription` -/
  shouldSavePlan : Bool
  /-- the new context returned by `tracing.StartSnowballTrace` -/
  spanCtx : Nat

/-- The field updates of `Setup` before the span decision
(instrumentation.go lines 114-137): record fingerprint and transaction
kind, run the mode switch, store the trace-callback knob and the
save-plan answer. -/
def setupFlags (ih : InstrumentationHelper) (env : SetupEnv)
    (fingerprint : String) (implicitTxn : Bool) : InstrumentationHelper :=
  let ih1 := { ih with fingerprint := fingerprint, implicitTxn := implicitTxn }
  let ih2 :=
    match ih1.outputMode with
    | OutputMode.explainAnalyzeDebugOutput =>
        { ih1 with collectBundle := true, discardRows := true }
    | OutputMode.explainAnalyzePlanOutput =>
        { ih1 with discardRows := true }
    | OutputMode.unmodifiedOutput =>
        { ih1 with collectBundle := env.registryCollect
                   diagRequestID := env.registryRequestID
                   finishCollectionDiagnostics := env.registryHasCallback }
  { ih2 with withStatementTrace := env.knobWithStatementTrace
             savePlanForStats := env.shouldSavePlan }

/-- Go `Setup` (instrumentation.go lines 105-147).  Returns the updated
helper, the context handed back to the caller (`newCtx`), and `needFinish`. -/
def InstrumentationHelper.Setup (ih : InstrumentationHelper) (env : SetupEnv)
    (ctx : Nat) (fingerprint : String) (implicitTxn : Bool) :
    InstrumentationHelper × Nat × Bool :=
  if (setupFlags ih env fingerprint implicitTxn).collectBundle = false ∧
      (setupFlags ih env fingerprint implicitTxn).withStatementTrace = false ∧
      (setupFlags ih env fingerprint implicitTxn).outputMode =
        OutputMode.unmodifiedOutput then
    (setupFlags ih env fingerprint implicitTxn, ctx, false)
  else
    ({ setupFlags ih env fingerprint implicitTxn with origCtx := ctx, sp := true },
      env.spanCtx, true)

/-- The analyzer of one entry of `p.curPlan.distSQLFlowInfos`, reduced to
the outcomes of the two calls `Finish` makes on it: `AddTrace(trace)` and
`GetNetworkBytesSent()` (the latter returning per-node byte counts). -/
structure FlowInfo where
  addTrace : Except String Unit
  networkBytes : Except String (List Int)
  deriving Repr

/-- Oracle inputs consumed by `Finish` (instrumentation.go lines 149-231). -/
structure FinishEnv where
  /-- the value of `res.Err()` inside `setExplainAnalyzePlanResult` -/
  resPriorErr : Option String
  /-- the communication error of `res.AddRow` for the i-th attempted row -/
  addRowErr : Nat → Option String
  /-- the communication error returned by `setExplainBundleResult` -/
  bundleResultErr : Option String
  /-- whether `appStats.getStatsForStmt(..., false /* createIfNonexistent */)`
  returns a non-nil record -/
  stmtStatsFound : Bool
  /-- the list `p.curPlan.distSQLFlowInfos` -/
  flows : List FlowInfo
  /-- the knob `cfg.TestingKnobs.DeterministicExplainAnalyze` -/
  deterministicExplainAnalyze : Bool
  /-- the live `statsCollector.phaseTimes` -/
  livePhaseTimes : PhaseTimes
  /-- the outcome of `emitExplain` under the verbose bundle flags, with the
  built string on success (`planStringForBundle`, lines 288-300) -/
  emitBundleString : Except String String
  /-- the outcome of `emitExplain` under `ih.explainFlags`, with the plan's
  display lines on success (`planRowsForExplainAnalyze`, lines 305-316) -/
  emitRows : Except String (List String)

/-- Go `planStringForBundle` (instrumentation.go lines 288-300): empty
string when no plan was recorded; on a render failure the string
`"error emitting plan: "` followed by the error text; otherwise the built
plan string. -/
def planStringForBundle (explainPlan : Option Unit)
    (emit : Except String String) : String :=
  match explainPlan with
  | none => ""
  | some _ =>
      match emit with
      | Except.error e => "error emitting plan: " ++ e
      | Except.ok s => s

/-- Go `PlanForStats` (instrumentation.go lines 272-285): absence when no
plan was recorded; a render failure is logged and turned into absence; the
built tree otherwise (trees abstracted to `Nat`). -/
def PlanForStats (explainPlan : Option Unit) (emit : Except String Nat) :
    Option Nat :=
  match explainPlan with
  | none => none
  | some _ =>
      match emit with
      | Except.error _ => none
      | Except.ok t => some t

/-- Rendering of one `ob.AddField(key, value)` line of the output builder.
Modelled from the spec (§4.4): the two synthetic header fields become
display lines; the duration text is the microsecond count (the code rounds
to the microsecond before printing). -/
def fieldRow (key : String) (micros : Int) : String :=
  key ++ ": " ++ toString micros ++ "µs"

/-- Go `planRowsForExplainAnalyze` (instrumentation.go lines 305-316): nil
when no plan was recorded; on a render failure a single error line (the
header fields built before the failure are discarded with the builder);
otherwise the two header lines followed by the plan's display lines. -/
def planRowsForExplainAnalyze (explainPlan : Option Unit) (pt : PhaseTimes)
    (emit : Except String (List String)) : List String :=
  match explainPlan with
  | none => []
  | some _ =>
      match emit with
      | Except.error e => ["error emitting plan: " ++ e]
      | Except.ok rows =>
          fieldRow "planning time" pt.getPlanningLatency ::
            fieldRow "execution time" pt.getRunLatency :: rows

/-- The `for _, row := range rows { if err := res.AddRow(...); err != nil
{ return err } }` loop of `setExplainAnalyzePlanResult` (lines 335-339):
adds rows in order, stopping at the first communication error, which it
returns.  `i` is the index of the next attempted row in `env.addRowErr`. -/
def addRowsFrom (addErr : Nat → Option String) :
    List String → Nat → List Effect × Option String
  | [], _ => ([], none)
  | row :: rest, i =>
      match addErr i with
      | some e => ([], some e)
      | none =>
          let tail := addRowsFrom addErr rest (i + 1)
          (Effect.addRow row :: tail.1, tail.2)

/-- Go `setExplainAnalyzePlanResult` (instrumentation.go lines 321-341):
reset the statement type, set the columns; if the result already holds an
error add no rows and return nil; otherwise append the plan rows, a blank
row and the experimental warning row, returning the first communication
error hit while adding. -/
def setExplainAnalyzePlanResult (ih : InstrumentationHelper) (env : FinishEnv)
    (pt : PhaseTimes) : List Effect × Option String :=
  let pre := [Effect.resetStmtType, Effect.setColumns]
  if env.resPriorErr ≠ none then
    (pre, none)
  else
    let rows := planRowsForExplainAnalyze ih.explainPlan pt env.emitRows ++
      ["", "WARNING: this statement is experimental!"]
    let added := addRowsFrom env.addRowErr rows 0
    (pre ++ added.1, added.2)

/-- `analyzer.AddTrace` / `analyzer.GetNetworkBytesSent` handling for one
flow (instrumentation.go lines 204-219): a flow whose analysis fails at
either call is skipped (`continue`) and contributes 0; otherwise its
per-node byte counts are summed. -/
def flowBytes (f : FlowInfo) : Int :=
  match f.addTrace with
  | Except.error _ => 0
  | Except.ok _ =>
      match f.networkBytes with
      | Except.error _ => 0
      | Except.ok perNode => perNode.foldl (· + ·) 0

/-- The `networkBytesSent` accumulation loop of `Finish`
(instrumentation.go lines 203-219). -/
def computeNetworkBytesSent (flows : List FlowInfo) : Int :=
  flows.foldl (fun acc f => acc + flowBytes f) 0

/-- The `if ih.collectBundle { ... }` block of `Finish` (lines 171-186):
build and insert the bundle; invoke the completion callback and bump
telemetry when the callback is non-nil; in debug mode with no error yet,
write the bundle-locator result and take its communication error as the
new `retErr`. -/
def bundleSection (ih : InstrumentationHelper) (env : FinishEnv) (ast : String)
    (retErr : Option String) : List Effect × Option String :=
  if ih.collectBundle then
    let insertEff := Effect.bundleInsert ih.fingerprint ast ih.diagRequestID
      (planStringForBundle ih.explainPlan env.emitBundleString)
    let cbEffs :=
      if ih.finishCollectionDiagnostics then
        [Effect.finishCallback, Effect.telemetryInc]
      else []
    if ih.outputMode = OutputMode.explainAnalyzeDebugOutput ∧ retErr = none then
      (insertEff :: cbEffs ++ [Effect.setBundleResult], env.bundleResultErr)
    else
      (insertEff :: cbEffs, retErr)
  else ([], retErr)

/-- The `if ih.outputMode == explainAnalyzePlanOutput && retErr == nil`
block of `Finish` (lines 192-198): pick live or deterministic phase times
per the testing knob and write the EXPLAIN ANALYZE rows, the write's
communication error becoming the new `retErr`. -/
def planSection (ih : InstrumentationHelper) (env : FinishEnv)
    (retErr : Option String) : List Effect × Option String :=
  if ih.outputMode = OutputMode.explainAnalyzePlanOutput ∧ retErr = none then
    let pt :=
      if env.deterministicExplainAnalyze then deterministicPhaseTimes
      else env.livePhaseTimes
    setExplainAnalyzePlanResult ih env pt
  else ([], retErr)

/-- The statistics block of `Finish` (lines 200-228): look up the shared
statement-statistics record (with `createIfNonexistent = false`); when one
is found, record the aggregated network bytes under its lock. -/
def statsSection (ih : InstrumentationHelper) (env : FinishEnv) : List Effect :=
  Effect.statsLookup ih.fingerprint ih.implicitTxn ::
    (if env.stmtStatsFound then
      [Effect.statsRecord ih.fingerprint ih.implicitTxn
        (computeNetworkBytesSent env.flows)]
    else [])

/-- Go `Finish` (instrumentation.go lines 149-231).  Returns the helper
state after the call, the collaborator calls made in program order, and the
error handed back to the caller.  When no span was created (`ih.sp` nil)
it returns immediately with the input error and no calls.  Note the code
never clears `ih.sp`. -/
def InstrumentationHelper.Finish (ih : InstrumentationHelper) (env : FinishEnv)
    (ast stmtRawSQL : String) (retErr : Option String) :
    InstrumentationHelper × List Effect × Option String :=
  if ih.sp = false then
    (ih, [], retErr)
  else
    let bundle := bundleSection ih env ast retErr
    let traceEffs :=
      if ih.withStatementTrace then [Effect.statementTraceCallback stmtRawSQL]
      else []
    let plan := planSection ih env bundle.2
    (ih,
      Effect.spanFinish :: Effect.getRecording ::
        (bundle.1 ++ traceEffs ++ plan.1 ++ statsSection ih env),
      plan.2)

/-! ## Helper machinery for reasoning about the effect log -/

/-- Number of effects in a log satisfying a predicate. -/
def countE (p : Effect → Bool) : List Effect → Nat
  | [] => 0
  | e :: rest => (if p e then 1 else 0) + countE p rest

/-- Recognize the `spanFinish` effect. -/
def isSpanFinish : Effect → Bool
  | Effect.spanFinish => true
  | _ => false

/-- Recognize `telemetryInc`. -/
def isTelemetryInc : Effect → Bool
  | Effect.telemetryInc => true
  | _ => false

/-- Recognize `finishCallback`. -/
def isFinishCallback : Effect → Bool
  | Effect.finishCallback => true
  | _ => false

/-- Recognize any `bundleInsert`. -/
def isBundleInsert : Effect → Bool
  | Effect.bundleInsert _ _ _ _ => true
  | _ => false

/-- Recognize any `statsRecord`. -/
def isStatsRecord : Effect → Bool
  | Effect.statsRecord _ _ _ => true
  | _ => false

/-- Recognize any `addRow`. -/
def isAddRow : Effect → Bool
  | Effect.addRow _ => true
  | _ => false

/-- The effect kinds the bundle block can produce. -/
def bundleKind : Effect → Bool
  | Effect.bundleInsert _ _ _ _ => true
  | Effect.finishCallback => true
  | Effect.telemetryInc => true
  | Effect.setBundleResult => true
  | _ => false

/-- The effect kinds the EXPLAIN ANALYZE (PLAN) block can produce. -/
def planKind : Effect → Bool
  | Effect.resetStmtType => true
  | Effect.setColumns => true
  | Effect.addRow _ => true
  | _ => false

/-- The effect kinds the statistics block can produce. -/
def statsKind : Effect → Bool
  | Effect.statsLookup _ _ => true
  | Effect.statsRecord _ _ _ => true
  | _ => false

/-- The rows successfully written to the statement result, in order. -/
def addedRows : List Effect → List String
  | [] => []
  | Effect.addRow s :: rest => s :: addedRows rest
  | _ :: rest => addedRows rest

theorem countE_append (p : Effect → Bool) (l₁ l₂ : List Effect) :
    countE p (l₁ ++ l₂) = countE p l₁ + countE p l₂ := by
  induction l₁ with
  | nil => simp [countE]
  | cons e rest ih =>
      show (if p e then 1 else 0) + countE p (rest ++ l₂) =
        (if p e then 1 else 0) + countE p rest + countE p l₂
      rw [ih]
      omega

theorem countE_eq_zero {p : Effect → Bool} {l : List Effect}
    (h : ∀ e ∈ l, p e = false) : countE p l = 0 := by
  induction l with
  | nil => rfl
  | cons e rest ih =>
      simp only [countE, h e (List.mem_cons_self e rest)]
      simp only [Bool.false_eq_true, if_false, Nat.zero_add]
      exact ih fun x hx => h x (List.mem_cons_of_mem e hx)

theorem all_mono {k p : Effect → Bool} {l : List Effect} (h : l.all k = true)
    (himp : ∀ e, k e = true → p e = true) : l.all p = true := by
  simp only [List.all_eq_true] at h ⊢
  exact fun e he => himp e (h e he)

theorem countE_eq_zero_of_all {k p : Effect → Bool} {l : List Effect}
    (hall : l.all k = true) (himp : ∀ e, k e = true → p e = false) :
    countE p l = 0 :=
  countE_eq_zero fun e he => himp e (List.all_eq_true.mp hall e he)

theorem addedRows_append (l₁ l₂ : List Effect) :
    addedRows (l₁ ++ l₂) = addedRows l₁ ++ addedRows l₂ := by
  induction l₁ with
  | nil => rfl
  | cons e rest ih => cases e <;> simp [addedRows, ih]

theorem addedRows_eq_nil {k : Effect → Bool} {l : List Effect}
    (hall : l.all k = true) (himp : ∀ e, k e = true → isAddRow e = false) :
    addedRows l = [] := by
  induction l with
  | nil => rfl
  | cons e rest ih =>
      simp only [List.all_cons, Bool.and_eq_true] at hall
      have he := himp e hall.1
      have hrest := ih hall.2
      cases e <;> simp_all [addedRows, isAddRow]

/-- Every effect produced by the row-adding loop is an `addRow`. -/
theorem addRowsFrom_all (addErr : Nat → Option String) :
    ∀ (rows : List String) (i : Nat),
      ((addRowsFrom addErr rows i).1).all isAddRow = true := by
  intro rows
  induction rows with
  | nil => intro i; rfl
  | cons row rest ih =>
      intro i
      simp only [addRowsFrom]
      cases haddErr : addErr i with
      | some e => rfl
      | none => simp [List.all_cons, isAddRow, ih (i + 1)]

/-- With no communication failures, the loop adds every row in order. -/
theorem addRowsFrom_all_ok {addErr : Nat → Option String}
    (hok : ∀ j, addErr j = none) :
    ∀ (rows : List String) (i : Nat),
      addRowsFrom addErr rows i = (rows.map Effect.addRow, none) := by
  intro rows
  induction rows with
  | nil => intro i; rfl
  | cons row rest ih =>
      intro i
      simp only [addRowsFrom, hok i, ih (i + 1), List.map_cons]

theorem addedRows_map_addRow (rows : List String) :
    addedRows (rows.map Effect.addRow) = rows := by
  induction rows with
  | nil => rfl
  | cons row rest ih => simp [addedRows, ih]

theorem isAddRow_planKind : ∀ e, isAddRow e = true → planKind e = true := by
  intro e h
  cases e <;> simp_all [isAddRow, planKind]

/-- Every effect of the bundle block is of a bundle kind. -/
theorem bundleSection_all (ih : InstrumentationHelper) (env : FinishEnv)
    (ast : String) (retErr : Option String) :
    ((bundleSection ih env ast retErr).1).all bundleKind = true := by
  simp only [bundleSection]
  repeat' split
  all_goals rfl

/-- Every effect of the EXPLAIN ANALYZE (PLAN) block is of a plan kind. -/
theorem planSection_all (ih : InstrumentationHelper) (env : FinishEnv)
    (retErr : Option String) :
    ((planSection ih env retErr).1).all planKind = true := by
  simp only [planSection, setExplainAnalyzePlanResult]
  repeat' split
  all_goals first
    | rfl
    | (rw [List.all_append, all_mono (addRowsFrom_all _ _ _) isAddRow_planKind]
       rfl)

/-- Every effect of the statistics block is of a stats kind. -/
theorem statsSection_all (ih : InstrumentationHelper) (env : FinishEnv) :
    (statsSection ih env).all statsKind = true := by
  simp only [statsSection]
  repeat' split
  all_goals rfl

/-! ## Facts about `setupFlags` -/

theorem setupFlags_sp (ih : InstrumentationHelper) (env : SetupEnv)
    (fp : String) (txn : Bool) : (setupFlags ih env fp txn).sp = ih.sp := by
  cases h : ih.outputMode <;> simp [setupFlags, h]

theorem setupFlags_outputMode (ih : InstrumentationHelper) (env : SetupEnv)
    (fp : String) (txn : Bool) :
    (setupFlags ih env fp txn).outputMode = ih.outputMode := by
  cases h : ih.outputMode <;> simp [setupFlags, h]

theorem setupFlags_withStatementTrace (ih : InstrumentationHelper) (env : SetupEnv)
    (fp : String) (txn : Bool) :
    (setupFlags ih env fp txn).withStatementTrace = env.knobWithStatementTrace := by
  cases h : ih.outputMode <;> simp [setupFlags, h]

theorem setupFlags_collectBundle (ih : InstrumentationHelper) (env : SetupEnv)
    (fp : String) (txn : Bool) :
    (setupFlags ih env fp txn).collectBundle =
      match ih.outputMode with
      | OutputMode.explainAnalyzeDebugOutput => true
      | OutputMode.explainAnalyzePlanOutput => ih.collectBundle
      | OutputMode.unmodifiedOutput => env.registryCollect := by
  cases h : ih.outputMode <;> simp [setupFlags, h]

theorem setupFlags_finishCollectionDiagnostics (ih : InstrumentationHelper)
    (env : SetupEnv) (fp : String) (txn : Bool) :
    (setupFlags ih env fp txn).finishCollectionDiagnostics =
      match ih.outputMode with
      | OutputMode.unmodifiedOutput => env.registryHasCallback
      | _ => ih.finishCollectionDiagnostics := by
  cases h : ih.outputMode <;> simp [setupFlags, h]

/-! ## Concrete fixtures used by witnesses and counterexamples -/

/-- A freshly constructed helper: every field at its Go zero value. -/
def ihIdle : InstrumentationHelper :=
  { outputMode := OutputMode.unmodifiedOutput
    fingerprint := ""
    implicitTxn := false
    collectBundle := false
    discardRows := false
    diagRequestID := 0
    finishCollectionDiagnostics := false
    withStatementTrace := false
    sp := false
    origCtx := 0
    savePlanForStats := false
    explainPlan := none }

/-- A `Setup` environment where every collaborator answers "no". -/
def quietSetupEnv : SetupEnv :=
  { registryCollect := false
    registryRequestID := 0
    registryHasCallback := false
    knobWithStatementTrace := false
    shouldSavePlan := false
    spanCtx := 9 }

/-- A benign `Finish` environment: no prior result error, no write
failures, statistics record found, no distributed flows, live phase
times. -/
def baseFinishEnv : FinishEnv :=
  { resPriorErr := none
    addRowErr := fun _ => none
    bundleResultErr := none
    stmtStatsFound := true
    flows := []
    deterministicExplainAnalyze := false
    livePhaseTimes := deterministicPhaseTimes
    emitBundleString := Except.ok "plan string"
    emitRows := Except.ok ["root"] }

/-! ## Claim theorems -/

/-- C4: `Setup` returns `needFinish = false` and creates no tracing span
exactly when the computed `collectBundle` flag is false, no trace-consumer
callback is registered, and the output mode is `unmodifiedOutput`; in every
other case it starts the span (`sp` set) and returns `needFinish = true`
with the augmented context from `StartSnowballTrace`. -/
theorem setup_arming_iff (ih : InstrumentationHelper) (env : SetupEnv)
    (ctx : Nat) (fp : String) (txn : Bool) (hsp : ih.sp = false) :
    let out := ih.Setup env ctx fp txn
    (out.2.2 = false ↔
      out.1.collectBundle = false ∧ out.1.withStatementTrace = false ∧
        ih.outputMode = OutputMode.unmodifiedOutput) ∧
    (out.2.2 = false → out.1.sp = false ∧ out.2.1 = ctx) ∧
    (out.2.2 = true → out.1.sp = true ∧ out.2.1 = env.spanCtx) := by
  intro out
  by_cases hc : (setupFlags ih env fp txn).collectBundle = false ∧
      (setupFlags ih env fp txn).withStatementTrace = false ∧
      (setupFlags ih env fp txn).outputMode = OutputMode.unmodifiedOutput
  · have hout : out = (setupFlags ih env fp txn, ctx, false) := by
      show ih.Setup env ctx fp txn = _
      unfold InstrumentationHelper.Setup
      rw [if_pos hc]
    rw [hout]
    refine ⟨?_, ?_, ?_⟩
    · simp only [true_iff]
      exact ⟨hc.1, hc.2.1, (setupFlags_outputMode ih env fp txn) ▸ hc.2.2⟩
    · intro _
      exact ⟨(setupFlags_sp ih env fp txn).trans hsp, rfl⟩
    · intro h
      simp at h
  · have hout : out =
        ({ setupFlags ih env fp txn with origCtx := ctx, sp := true },
          env.spanCtx, true) := by
      show ih.Setup env ctx fp txn = _
      unfold InstrumentationHelper.Setup
      rw [if_neg hc]
    rw [hout]
    refine ⟨?_, ?_, ?_⟩
    · constructor
      · intro h; simp at h
      · intro h
        exact absurd ⟨h.1, h.2.1, (setupFlags_outputMode ih env fp txn).symm ▸ h.2.2⟩ hc
    · intro h; simp at h
    · intro _; exact ⟨rfl, rfl⟩

/-- Witness for C4 at a concrete input: a fresh helper with every
collaborator answering "no" yields `needFinish = false`. -/
theorem setup_arming_iff_witness :
    let out := ihIdle.Setup quietSetupEnv 3 "SELECT _" false
    (out.2.2 = false ↔
      out.1.collectBundle = false ∧ out.1.withStatementTrace = false ∧
        ihIdle.outputMode = OutputMode.unmodifiedOutput) ∧
    (out.2.2 = false → out.1.sp = false ∧ out.2.1 = 3) ∧
    (out.2.2 = true → out.1.sp = true ∧ out.2.1 = quietSetupEnv.spanCtx) :=
  setup_arming_iff ihIdle quietSetupEnv 3 "SELECT _" false rfl

/-- C5: if no span was armed (`ih.sp` nil — in particular after a `Setup`
that returned `needFinish = false`, which leaves `sp` nil), `Finish`
returns its input error unchanged, makes zero collaborator calls, and
leaves the helper state unchanged. -/
theorem finish_noop_when_unarmed :
    (∀ (ih : InstrumentationHelper) (env : FinishEnv) (ast sql : String)
        (retErr : Option String), ih.sp = false →
        ih.Finish env ast sql retErr = (ih, [], retErr)) ∧
    (∀ (ih : InstrumentationHelper) (env : SetupEnv) (ctx : Nat)
        (fp : String) (txn : Bool), ih.sp = false →
        (ih.Setup env ctx fp txn).2.2 = false →
        ((ih.Setup env ctx fp txn).1).sp = false) := by
  constructor
  · intro ih env ast sql retErr h
    simp [InstrumentationHelper.Finish, h]
  · intro ih env ctx fp txn hsp hneed
    by_cases hc : (setupFlags ih env fp txn).collectBundle = false ∧
        (setupFlags ih env fp txn).withStatementTrace = false ∧
        (setupFlags ih env fp txn).outputMode = OutputMode.unmodifiedOutput
    · have hout : ih.Setup env ctx fp txn = (setupFlags ih env fp txn, ctx, false) := by
        unfold InstrumentationHelper.Setup
        rw [if_pos hc]
      rw [hout]
      exact (setupFlags_sp ih env fp txn).trans hsp
    · have hout : ih.Setup env ctx fp txn =
          ({ setupFlags ih env fp txn with origCtx := ctx, sp := true },
            env.spanCtx, true) := by
        unfold InstrumentationHelper.Setup
        rw [if_neg hc]
      rw [hout] at hneed
      simp at hneed

/-- Witness for C5: a fresh unarmed helper, `Finish` invoked with an
execution error, hands the error back untouched with an empty call log. -/
theorem finish_noop_when_unarmed_witness :
    ihIdle.Finish baseFinishEnv "SELECT 1" "SELECT 1" (some "boom") =
      (ihIdle, [], some "boom") ∧
    ((ihIdle.Setup quietSetupEnv 3 "SELECT _" false).1).sp = false :=
  ⟨finish_noop_when_unarmed.1 ihIdle baseFinishEnv "SELECT 1" "SELECT 1"
      (some "boom") rfl,
   finish_noop_when_unarmed.2 ihIdle quietSetupEnv 3 "SELECT _" false rfl rfl⟩

/-! ## Unfolding lemmas for `Finish` -/

/-- On an armed helper, `Finish` runs the four blocks in program order. -/
theorem finish_armed_eq (ih : InstrumentationHelper) (env : FinishEnv)
    (ast sql : String) (retErr : Option String) (hsp : ih.sp = true) :
    ih.Finish env ast sql retErr =
      (ih,
        Effect.spanFinish :: Effect.getRecording ::
          ((bundleSection ih env ast retErr).1 ++
            (if ih.withStatementTrace then [Effect.statementTraceCallback sql]
              else []) ++
            (planSection ih env (bundleSection ih env ast retErr).2).1 ++
            statsSection ih env),
        (planSection ih env (bundleSection ih env ast retErr).2).2) := by
  unfold InstrumentationHelper.Finish
  rw [if_neg (by simp [hsp])]

/-- The error produced by the bundle block. -/
theorem bundleSection_snd (ih : InstrumentationHelper) (env : FinishEnv)
    (ast : String) (retErr : Option String) :
    (bundleSection ih env ast retErr).2 =
      if ih.collectBundle = true ∧
          ih.outputMode = OutputMode.explainAnalyzeDebugOutput ∧ retErr = none
      then env.bundleResultErr else retErr := by
  by_cases hcb : ih.collectBundle = true <;>
    by_cases hdm : ih.outputMode = OutputMode.explainAnalyzeDebugOutput ∧
        retErr = none <;>
      simp [bundleSection, hcb, hdm]

/-- The error produced by the EXPLAIN ANALYZE (PLAN) block. -/
theorem planSection_snd (ih : InstrumentationHelper) (env : FinishEnv)
    (retErr : Option String) :
    (planSection ih env retErr).2 =
      if ih.outputMode = OutputMode.explainAnalyzePlanOutput ∧ retErr = none
      then (setExplainAnalyzePlanResult ih env
        (if env.deterministicExplainAnalyze then deterministicPhaseTimes
          else env.livePhaseTimes)).2
      else retErr := by
  unfold planSection
  split_ifs <;> rfl

/-- One error superseding another: a communication error from the result
write, when present, replaces the pending error. -/
def takesPrecedence (writeErr original : Option String) : Option String :=
  match writeErr with
  | some e => some e
  | none => original

/-- The write-phase communication error of one `Finish` call: the error of
the bundle-locator write (debug mode) or of the EXPLAIN ANALYZE row writes
(plan mode), each attempted only when no error is pending yet.  This is the
spec-side characterization against which the code's returned error is
compared. -/
def resultWriteErr (ih : InstrumentationHelper) (env : FinishEnv)
    (retErr : Option String) : Option String :=
  if retErr = none then
    if ih.collectBundle = true ∧
        ih.outputMode = OutputMode.explainAnalyzeDebugOutput then
      env.bundleResultErr
    else if ih.outputMode = OutputMode.explainAnalyzePlanOutput then
      (setExplainAnalyzePlanResult ih env
        (if env.deterministicExplainAnalyze then deterministicPhaseTimes
          else env.livePhaseTimes)).2
    else none
  else none

/-- C1: on an armed helper, if writing the statement result (the
bundle-locator row in debug mode, the EXPLAIN ANALYZE rows in plan mode)
produced a communication error, `Finish` returns that error; in every other
case it returns the original execution error unchanged.  (The writes are
attempted only when the original error is nil, so a non-nil original error
always passes through untouched.) -/
theorem finish_error_propagation (ih : InstrumentationHelper)
    (env : FinishEnv) (ast sql : String) (retErr : Option String)
    (hsp : ih.sp = true) :
    (ih.Finish env ast sql retErr).2.2 =
      takesPrecedence (resultWriteErr ih env retErr) retErr := by
  rw [finish_armed_eq ih env ast sql retErr hsp]
  simp only
  rw [planSection_snd, bundleSection_snd]
  unfold resultWriteErr
  by_cases h0 : retErr = none
  · subst h0
    by_cases hcb : ih.collectBundle = true <;>
      cases hm : ih.outputMode <;>
        cases hw : (setExplainAnalyzePlanResult ih env
          (if env.deterministicExplainAnalyze then deterministicPhaseTimes
            else env.livePhaseTimes)).2 <;>
          cases hb : env.bundleResultErr <;>
            simp [hcb, hm, hw, hb, takesPrecedence]
  · obtain ⟨e, he⟩ : ∃ e, retErr = some e := by
      cases hr : retErr
      · exact absurd hr h0
      · exact ⟨_, rfl⟩
    subst he
    simp [takesPrecedence]

/-- An armed helper in EXPLAIN ANALYZE (DEBUG) mode, exactly as produced by
`Setup` on a fresh helper carrying that mode. -/
def ihDebugArmed : InstrumentationHelper :=
  (({ ihIdle with
      outputMode := OutputMode.explainAnalyzeDebugOutput }).Setup
    quietSetupEnv 3 "SELECT _" false).1

/-- A `Finish` environment whose bundle-locator write fails with a
communication error. -/
def commErrFinishEnv : FinishEnv :=
  { baseFinishEnv with bundleResultErr := some "connection reset" }

/-- Witness for C1: a debug-mode armed helper whose bundle-locator write
fails hands that communication error back. -/
theorem finish_error_propagation_witness :
    ihDebugArmed.sp = true ∧
    (ihDebugArmed.Finish commErrFinishEnv "SELECT _" "SELECT 1" none).2.2 =
      takesPrecedence (resultWriteErr ihDebugArmed commErrFinishEnv none)
        none :=
  ⟨rfl, finish_error_propagation ihDebugArmed commErrFinishEnv "SELECT _"
    "SELECT 1" none rfl⟩

/-- C9: when the `DeterministicExplainAnalyze` testing knob is set, the
live phase times are never consulted — two `Finish` calls on the same
state that differ only in the live phase times produce identical states,
identical call logs (in particular identical "planning time"/"execution
time" rows) and identical errors. -/
theorem deterministic_phase_times_noninterference
    (ih : InstrumentationHelper) (env : FinishEnv) (ast sql : String)
    (retErr : Option String) (pt1 pt2 : PhaseTimes) :
    ih.Finish
        { env with deterministicExplainAnalyze := true, livePhaseTimes := pt1 }
        ast sql retErr =
      ih.Finish
        { env with deterministicExplainAnalyze := true, livePhaseTimes := pt2 }
        ast sql retErr := rfl

/-- The bundle-insert call of the bundle block always carries the
`planStringForBundle` rendering. -/
theorem bundleInsert_mem_bundleSection (ih : InstrumentationHelper)
    (env : FinishEnv) (ast : String) (retErr : Option String)
    (hcb : ih.collectBundle = true) :
    Effect.bundleInsert ih.fingerprint ast ih.diagRequestID
      (planStringForBundle ih.explainPlan env.emitBundleString) ∈
      (bundleSection ih env ast retErr).1 := by
  unfold bundleSection
  rw [hcb, if_pos rfl]
  split_ifs <;> exact List.mem_cons_self _ _

/-- C10: if a plan was recorded but the verbose rendering fails,
`planStringForBundle` returns the text `"error emitting plan: "` followed
by the error — never the empty string and never a propagated error (its
type is plain `String`) — and the `Finish` of a bundle-collecting armed
helper still inserts the bundle with that text as its plan string; by
contrast `PlanForStats` turns a render failure into absence. -/
theorem bundle_plan_string_on_render_failure (ih : InstrumentationHelper)
    (env : FinishEnv) (ast sql : String) (retErr : Option String)
    (e : String) (emitStats : Except String Nat) (e2 : String)
    (hplan : ih.explainPlan = some ())
    (hemit : env.emitBundleString = Except.error e)
    (hcb : ih.collectBundle = true) (hsp : ih.sp = true)
    (hstats : emitStats = Except.error e2) :
    planStringForBundle ih.explainPlan env.emitBundleString =
      "error emitting plan: " ++ e ∧
    planStringForBundle ih.explainPlan env.emitBundleString ≠ "" ∧
    Effect.bundleInsert ih.fingerprint ast ih.diagRequestID
      ("error emitting plan: " ++ e) ∈ (ih.Finish env ast sql retErr).2.1 ∧
    PlanForStats ih.explainPlan emitStats = none := by
  have h1 : planStringForBundle ih.explainPlan env.emitBundleString =
      "error emitting plan: " ++ e := by
    rw [hplan, hemit]
    rfl
  refine ⟨h1, ?_, ?_, ?_⟩
  · rw [h1]
    intro hcontr
    have hlen := congrArg String.length hcontr
    rw [String.length_append] at hlen
    have h21 : ("error emitting plan: ").length = 21 := rfl
    have hz : ("" : String).length = 0 := rfl
    omega
  · rw [finish_armed_eq ih env ast sql retErr hsp]
    simp only [List.mem_cons]
    right; right
    apply List.mem_append_left
    apply List.mem_append_left
    apply List.mem_append_left
    rw [← h1]
    exact bundleInsert_mem_bundleSection ih env ast retErr hcb
  · rw [hplan, hstats]
    rfl

/-- A debug-mode armed helper that has recorded an explain plan. -/
def ihDebugPlanArmed : InstrumentationHelper :=
  { ihDebugArmed with explainPlan := some () }

/-- A `Finish` environment whose verbose bundle rendering fails. -/
def renderFailEnv : FinishEnv :=
  { baseFinishEnv with emitBundleString := Except.error "render failed" }

/-- Witness for C10 at a concrete input. -/
theorem bundle_plan_string_on_render_failure_witness :
    planStringForBundle ihDebugPlanArmed.explainPlan
      renderFailEnv.emitBundleString = "error emitting plan: " ++ "render failed" ∧
    planStringForBundle ihDebugPlanArmed.explainPlan
      renderFailEnv.emitBundleString ≠ "" ∧
    Effect.bundleInsert ihDebugPlanArmed.fingerprint "SELECT _"
      ihDebugPlanArmed.diagRequestID
      ("error emitting plan: " ++ "render failed") ∈
      (ihDebugPlanArmed.Finish renderFailEnv "SELECT _" "SELECT 1" none).2.1 ∧
    PlanForStats ihDebugPlanArmed.explainPlan
      (Except.error "tree failed" : Except String Nat) = none :=
  bundle_plan_string_on_render_failure ihDebugPlanArmed renderFailEnv
    "SELECT _" "SELECT 1" none "render failed" (Except.error "tree failed")
    "tree failed" rfl rfl rfl rfl rfl

/-! ## Disjointness of effect kinds and per-block counts -/

theorem bundleKind_disjoint : ∀ e, bundleKind e = true →
    isSpanFinish e = false ∧ isStatsRecord e = false ∧ isAddRow e = false := by
  intro e h
  cases e <;> simp_all [bundleKind, isSpanFinish, isStatsRecord, isAddRow]

theorem planKind_disjoint : ∀ e, planKind e = true →
    isSpanFinish e = false ∧ isTelemetryInc e = false ∧
    isFinishCallback e = false ∧ isBundleInsert e = false ∧
    isStatsRecord e = false := by
  intro e h
  cases e <;> simp_all [planKind, isSpanFinish, isTelemetryInc,
    isFinishCallback, isBundleInsert, isStatsRecord]

theorem statsKind_disjoint : ∀ e, statsKind e = true →
    isSpanFinish e = false ∧ isTelemetryInc e = false ∧
    isFinishCallback e = false ∧ isBundleInsert e = false ∧
    isAddRow e = false := by
  intro e h
  cases e <;> simp_all [statsKind, isSpanFinish, isTelemetryInc,
    isFinishCallback, isBundleInsert, isAddRow]

theorem countE_bundleInsert_bundleSection (ih : InstrumentationHelper)
    (env : FinishEnv) (ast : String) (retErr : Option String) :
    countE isBundleInsert (bundleSection ih env ast retErr).1 =
      if ih.collectBundle then 1 else 0 := by
  unfold bundleSection
  split_ifs <;> rfl

theorem countE_telemetry_bundleSection (ih : InstrumentationHelper)
    (env : FinishEnv) (ast : String) (retErr : Option String) :
    countE isTelemetryInc (bundleSection ih env ast retErr).1 =
      if ih.collectBundle then
        (if ih.finishCollectionDiagnostics then 1 else 0)
      else 0 := by
  unfold bundleSection
  split_ifs <;> rfl

theorem countE_finishCallback_bundleSection (ih : InstrumentationHelper)
    (env : FinishEnv) (ast : String) (retErr : Option String) :
    countE isFinishCallback (bundleSection ih env ast retErr).1 =
      if ih.collectBundle then
        (if ih.finishCollectionDiagnostics then 1 else 0)
      else 0 := by
  unfold bundleSection
  split_ifs <;> rfl

theorem countE_statsRecord_statsSection (ih : InstrumentationHelper)
    (env : FinishEnv) :
    countE isStatsRecord (statsSection ih env) =
      if env.stmtStatsFound then 1 else 0 := by
  unfold statsSection
  split_ifs <;> rfl

theorem countE_trace_zero (p : Effect → Bool)
    (hp : ∀ s, p (Effect.statementTraceCallback s) = false) (b : Bool)
    (sql : String) :
    countE p (if b then [Effect.statementTraceCallback sql] else []) = 0 := by
  cases b <;> simp [countE, hp]

theorem countE_cons_cons_append (p : Effect → Bool) (e1 e2 : Effect)
    (a b c d : List Effect) :
    countE p (e1 :: e2 :: (a ++ b ++ c ++ d)) =
      (if p e1 then 1 else 0) + (if p e2 then 1 else 0) +
        (countE p a + countE p b + countE p c + countE p d) := by
  simp only [countE, countE_append]
  omega

/-! ## Count-based claim theorems -/

/-- An armed helper produced by `Setup` on a fresh one in unmodified mode
with a registered trace-consumer callback (the simplest armed state). -/
def ihTraceArmed : InstrumentationHelper :=
  (ihIdle.Setup { quietSetupEnv with knobWithStatementTrace := true }
    3 "SELECT _" false).1

/-- Counterexample to C6 as stated: the code never clears `ih.sp`, so a
second controller `Finish` call finishes the tracing span again — two
`spanFinish` calls in the combined log of two `Finish` invocations. -/
theorem double_finish_two_span_finishes_cex :
    countE isSpanFinish
      ((ihTraceArmed.Finish baseFinishEnv "SELECT _" "SELECT 1" none).2.1 ++
        (((ihTraceArmed.Finish baseFinishEnv "SELECT _" "SELECT 1"
            none).1).Finish baseFinishEnv "SELECT _" "SELECT 1"
          ((ihTraceArmed.Finish baseFinishEnv "SELECT _" "SELECT 1"
            none).2.2)).2.1) = 2 := by
  rfl

/-- C6 amended: within any single `Finish` call on an armed helper the
span is finished exactly once, the recording is retrieved immediately
after (and only after) the span finish, and the helper state — including
the still-set span reference — is returned unchanged; exactly-once across
a whole execution therefore holds only under the documented contract that
callers invoke `Finish` once. -/
theorem span_finished_once_per_finish_call (ih : InstrumentationHelper)
    (env : FinishEnv) (ast sql : String) (retErr : Option String)
    (hsp : ih.sp = true) :
    countE isSpanFinish (ih.Finish env ast sql retErr).2.1 = 1 ∧
    ((ih.Finish env ast sql retErr).2.1).take 2 =
      [Effect.spanFinish, Effect.getRecording] ∧
    (ih.Finish env ast sql retErr).1 = ih := by
  rw [finish_armed_eq ih env ast sql retErr hsp]
  refine ⟨?_, rfl, rfl⟩
  have hb := countE_eq_zero_of_all (bundleSection_all ih env ast retErr)
    (fun e h => (bundleKind_disjoint e h).1)
  have ht := countE_trace_zero isSpanFinish (fun s => rfl)
    ih.withStatementTrace sql
  have hp := countE_eq_zero_of_all
    (planSection_all ih env (bundleSection ih env ast retErr).2)
    (fun e h => (planKind_disjoint e h).1)
  have hs := countE_eq_zero_of_all (statsSection_all ih env)
    (fun e h => (statsKind_disjoint e h).1)
  rw [countE_cons_cons_append, hb, ht, hp, hs]
  rfl

/-- Witness for the amended C6 at a concrete armed helper. -/
theorem span_finished_once_per_finish_call_witness :
    countE isSpanFinish
      (ihTraceArmed.Finish baseFinishEnv "SELECT _" "SELECT 1" none).2.1 = 1 ∧
    ((ihTraceArmed.Finish baseFinishEnv "SELECT _" "SELECT 1" none).2.1).take 2 =
      [Effect.spanFinish, Effect.getRecording] ∧
    (ihTraceArmed.Finish baseFinishEnv "SELECT _" "SELECT 1" none).1 =
      ihTraceArmed :=
  span_finished_once_per_finish_call ihTraceArmed baseFinishEnv "SELECT _"
    "SELECT 1" none rfl

/-- A `Finish` environment in which the statement-statistics lookup finds
no record even though a distributed flow reported five network bytes. -/
def noStatsFinishEnv : FinishEnv :=
  { baseFinishEnv with
    stmtStatsFound := false
    flows := [{ addTrace := Except.ok (), networkBytes := Except.ok [5] }] }

/-- Counterexample to C2 as stated: on an armed execution whose
statement-statistics lookup (performed with `createIfNonexistent = false`)
returns no record, `Finish` performs no fold-in at all. -/
theorem finish_stats_fold_skipped_cex :
    ihTraceArmed.sp = true ∧
    countE isStatsRecord
      (ihTraceArmed.Finish noStatsFinishEnv "SELECT _" "SELECT 1"
        none).2.1 = 0 := by
  exact ⟨rfl, rfl⟩

/-- C2 amended: on every `Finish` call of an armed execution the shared
statistics record for (fingerprint, implicit-txn) is looked up (not
created: the lookup passes `createIfNonexistent = false`); when a record
is found, exactly one fold-in of the network bytes summed over every
distributed sub-flow and node is performed under the record's lock; when
none is found, the fold-in is skipped. -/
theorem finish_stats_fold_conditional (ih : InstrumentationHelper)
    (env : FinishEnv) (ast sql : String) (retErr : Option String)
    (hsp : ih.sp = true) :
    Effect.statsLookup ih.fingerprint ih.implicitTxn ∈
      (ih.Finish env ast sql retErr).2.1 ∧
    (env.stmtStatsFound = true →
      countE isStatsRecord (ih.Finish env ast sql retErr).2.1 = 1 ∧
      Effect.statsRecord ih.fingerprint ih.implicitTxn
        (computeNetworkBytesSent env.flows) ∈
        (ih.Finish env ast sql retErr).2.1) ∧
    (env.stmtStatsFound = false →
      countE isStatsRecord (ih.Finish env ast sql retErr).2.1 = 0) := by
  rw [finish_armed_eq ih env ast sql retErr hsp]
  have hb := countE_eq_zero_of_all (bundleSection_all ih env ast retErr)
    (fun e h => (bundleKind_disjoint e h).2.1)
  have ht := countE_trace_zero isStatsRecord (fun s => rfl)
    ih.withStatementTrace sql
  have hp := countE_eq_zero_of_all
    (planSection_all ih env (bundleSection ih env ast retErr).2)
    (fun e h => (planKind_disjoint e h).2.2.2.2)
  refine ⟨?_, ?_, ?_⟩
  · simp only [List.mem_cons]
    right; right
    apply List.mem_append_right
    unfold statsSection
    exact List.mem_cons_self _ _
  · intro hfound
    constructor
    · rw [countE_cons_cons_append, hb, ht, hp,
        countE_statsRecord_statsSection, hfound]
      rfl
    · simp only [List.mem_cons]
      right; right
      apply List.mem_append_right
      unfold statsSection
      rw [hfound]
      exact List.mem_cons_of_mem _ (List.mem_cons_self _ _)
  · intro hnone
    rw [countE_cons_cons_append, hb, ht, hp,
      countE_statsRecord_statsSection, hnone]
    rfl

/-- Witness for the amended C2: one concrete armed `Finish` with a found
record folds in the flow bytes exactly once. -/
theorem finish_stats_fold_conditional_witness :
    Effect.statsLookup ihTraceArmed.fingerprint ihTraceArmed.implicitTxn ∈
      (ihTraceArmed.Finish baseFinishEnv "SELECT _" "SELECT 1" none).2.1 ∧
    (baseFinishEnv.stmtStatsFound = true →
      countE isStatsRecord
        (ihTraceArmed.Finish baseFinishEnv "SELECT _" "SELECT 1"
          none).2.1 = 1 ∧
      Effect.statsRecord ihTraceArmed.fingerprint ihTraceArmed.implicitTxn
        (computeNetworkBytesSent baseFinishEnv.flows) ∈
        (ihTraceArmed.Finish baseFinishEnv "SELECT _" "SELECT 1" none).2.1) ∧
    (baseFinishEnv.stmtStatsFound = false →
      countE isStatsRecord
        (ihTraceArmed.Finish baseFinishEnv "SELECT _" "SELECT 1"
          none).2.1 = 0) :=
  finish_stats_fold_conditional ihTraceArmed baseFinishEnv "SELECT _"
    "SELECT 1" none rfl

/-- Counterexample to C3 as stated: in EXPLAIN ANALYZE (DEBUG) mode
`Setup` sets `collectBundle` without registering a completion callback, so
the armed `Finish` inserts the bundle but invokes no completion callback
and increments no telemetry counter. -/
theorem debug_mode_no_telemetry_cex :
    ihDebugArmed.collectBundle = true ∧ ihDebugArmed.sp = true ∧
    countE isBundleInsert
      (ihDebugArmed.Finish baseFinishEnv "SELECT _" "SELECT 1"
        none).2.1 = 1 ∧
    countE isTelemetryInc
      (ihDebugArmed.Finish baseFinishEnv "SELECT _" "SELECT 1"
        none).2.1 = 0 ∧
    countE isFinishCallback
      (ihDebugArmed.Finish baseFinishEnv "SELECT _" "SELECT 1"
        none).2.1 = 0 := by
  exact ⟨rfl, rfl, rfl, rfl, rfl⟩

/-- C3 amended: whenever `collectBundle` is set and a span was armed,
`Finish` builds the bundle from the trace, the verbose plan string and the
parameters and inserts it exactly once, keyed by (fingerprint, statement,
requestID); the completion callback is invoked and the telemetry counter
incremented exactly once if (and only if) a completion callback was
registered — in particular not in EXPLAIN ANALYZE (DEBUG) mode, which sets
`collectBundle` without a callback. -/
theorem bundle_insert_telemetry_conditional (ih : InstrumentationHelper)
    (env : FinishEnv) (ast sql : String) (retErr : Option String)
    (hsp : ih.sp = true) (hcb : ih.collectBundle = true) :
    countE isBundleInsert (ih.Finish env ast sql retErr).2.1 = 1 ∧
    Effect.bundleInsert ih.fingerprint ast ih.diagRequestID
      (planStringForBundle ih.explainPlan env.emitBundleString) ∈
      (ih.Finish env ast sql retErr).2.1 ∧
    countE isTelemetryInc (ih.Finish env ast sql retErr).2.1 =
      (if ih.finishCollectionDiagnostics then 1 else 0) ∧
    countE isFinishCallback (ih.Finish env ast sql retErr).2.1 =
      (if ih.finishCollectionDiagnostics then 1 else 0) := by
  rw [finish_armed_eq ih env ast sql retErr hsp]
  have hpB := countE_eq_zero_of_all
    (planSection_all ih env (bundleSection ih env ast retErr).2)
    (fun e h => (planKind_disjoint e h).2.2.2.1)
  have hpT := countE_eq_zero_of_all
    (planSection_all ih env (bundleSection ih env ast retErr).2)
    (fun e h => (planKind_disjoint e h).2.1)
  have hpF := countE_eq_zero_of_all
    (planSection_all ih env (bundleSection ih env ast retErr).2)
    (fun e h => (planKind_disjoint e h).2.2.1)
  have hsB := countE_eq_zero_of_all (statsSection_all ih env)
    (fun e h => (statsKind_disjoint e h).2.2.2.1)
  have hsT := countE_eq_zero_of_all (statsSection_all ih env)
    (fun e h => (statsKind_disjoint e h).2.1)
  have hsF := countE_eq_zero_of_all (statsSection_all ih env)
    (fun e h => (statsKind_disjoint e h).2.2.1)
  refine ⟨?_, ?_, ?_, ?_⟩
  · rw [countE_cons_cons_append, countE_bundleInsert_bundleSection,
      countE_trace_zero isBundleInsert (fun s => rfl), hpB, hsB, hcb]
    rfl
  · simp only [List.mem_cons]
    right; right
    apply List.mem_append_left
    apply List.mem_append_left
    apply List.mem_append_left
    exact bundleInsert_mem_bundleSection ih env ast retErr hcb
  · rw [countE_cons_cons_append, countE_telemetry_bundleSection,
      countE_trace_zero isTelemetryInc (fun s => rfl), hpT, hsT, hcb]
    cases hfc : ih.finishCollectionDiagnostics <;> rfl
  · rw [countE_cons_cons_append, countE_finishCallback_bundleSection,
      countE_trace_zero isFinishCallback (fun s => rfl), hpF, hsF, hcb]
    cases hfc : ih.finishCollectionDiagnostics <;> rfl

/-- An armed helper whose bundle collection came from the diagnostics
registry (unmodified mode, registry answers collect with a callback). -/
def registrySetupEnv : SetupEnv :=
  { quietSetupEnv with
    registryCollect := true
    registryRequestID := 42
    registryHasCallback := true }

/-- The armed helper produced by a registry-triggered collection. -/
def ihRegistryArmed : InstrumentationHelper :=
  (ihIdle.Setup registrySetupEnv 3 "SELECT 1" false).1

/-- Witness for the amended C3: a registry-armed helper inserts the
bundle once and bumps telemetry once. -/
theorem bundle_insert_telemetry_conditional_witness :
    countE isBundleInsert
      (ihRegistryArmed.Finish baseFinishEnv "SELECT 1" "SELECT 1"
        none).2.1 = 1 ∧
    Effect.bundleInsert ihRegistryArmed.fingerprint "SELECT 1"
      ihRegistryArmed.diagRequestID
      (planStringForBundle ihRegistryArmed.explainPlan
        baseFinishEnv.emitBundleString) ∈
      (ihRegistryArmed.Finish baseFinishEnv "SELECT 1" "SELECT 1"
        none).2.1 ∧
    countE isTelemetryInc
      (ihRegistryArmed.Finish baseFinishEnv "SELECT 1" "SELECT 1"
        none).2.1 =
      (if ihRegistryArmed.finishCollectionDiagnostics then 1 else 0) ∧
    countE isFinishCallback
      (ihRegistryArmed.Finish baseFinishEnv "SELECT 1" "SELECT 1"
        none).2.1 =
      (if ihRegistryArmed.finishCollectionDiagnostics then 1 else 0) :=
  bundle_insert_telemetry_conditional ihRegistryArmed baseFinishEnv
    "SELECT 1" "SELECT 1" none rfl rfl

/-! ## C7: EXPLAIN ANALYZE (PLAN) row output -/

theorem addedRows_cons_not (e : Effect) (l : List Effect)
    (he : isAddRow e = false) : addedRows (e :: l) = addedRows l := by
  cases e <;> simp_all [addedRows, isAddRow]

/-- C7: in ExplainAnalyzePlan mode with a nil incoming error, no prior
result error and no communication failures, the rows written to the result
are exactly the plan rendering followed by an empty row and the literal
experimental warning: (plan line count) + 2 rows, the second-to-last
(index = plan line count) empty, the last the warning text. -/
theorem explain_analyze_plan_rows (ih : InstrumentationHelper)
    (env : FinishEnv) (ast sql : String) (hsp : ih.sp = true)
    (hmode : ih.outputMode = OutputMode.explainAnalyzePlanOutput)
    (hres : env.resPriorErr = none) (hok : ∀ j, env.addRowErr j = none) :
    let pt := if env.deterministicExplainAnalyze then deterministicPhaseTimes
      else env.livePhaseTimes
    let planRows := planRowsForExplainAnalyze ih.explainPlan pt env.emitRows
    let rows := addedRows (ih.Finish env ast sql none).2.1
    rows = planRows ++ ["", "WARNING: this statement is experimental!"] ∧
    rows.length = planRows.length + 2 ∧
    rows.getLast? = some "WARNING: this statement is experimental!" ∧
    rows.get? planRows.length = some "" := by
  intro pt planRows rows
  have hbsnd : (bundleSection ih env ast none).2 = none := by
    rw [bundleSection_snd, if_neg]
    intro h
    rw [hmode] at h
    exact absurd h.2.1 (by decide)
  have hB : addedRows (bundleSection ih env ast none).1 = [] :=
    addedRows_eq_nil (bundleSection_all ih env ast none)
      (fun e h => (bundleKind_disjoint e h).2.2)
  have hT : addedRows (if ih.withStatementTrace then
      [Effect.statementTraceCallback sql] else []) = [] := by
    cases hw : ih.withStatementTrace <;> rfl
  have hS : addedRows (statsSection ih env) = [] :=
    addedRows_eq_nil (statsSection_all ih env)
      (fun e h => (statsKind_disjoint e h).2.2.2.2)
  have hP : addedRows (planSection ih env (bundleSection ih env ast none).2).1
      = planRows ++ ["", "WARNING: this statement is experimental!"] := by
    rw [hbsnd]
    unfold planSection
    rw [if_pos ⟨hmode, rfl⟩]
    simp only [setExplainAnalyzePlanResult, hres, ne_eq, not_true_eq_false,
      if_false]
    rw [addRowsFrom_all_ok hok]
    simp only [addedRows_append, addedRows_map_addRow]
    rfl
  have hmain : rows = planRows ++ ["", "WARNING: this statement is experimental!"] := by
    show addedRows (ih.Finish env ast sql none).2.1 = _
    rw [finish_armed_eq ih env ast sql none hsp]
    simp only
    rw [addedRows_cons_not Effect.spanFinish _ rfl,
      addedRows_cons_not Effect.getRecording _ rfl,
      addedRows_append, addedRows_append, addedRows_append, hB, hT, hS, hP]
    simp
  refine ⟨hmain, ?_, ?_, ?_⟩
  · rw [hmain]
    simp
  · rw [hmain,
      show planRows ++ ["", "WARNING: this statement is experimental!"] =
        (planRows ++ [""]) ++ ["WARNING: this statement is experimental!"]
        by simp]
    exact List.getLast?_concat _
  · rw [hmain, List.get?_eq_getElem?,
      List.getElem?_append_right (Nat.le_refl _)]
    simp

/-- An armed plan-mode helper that has recorded an explain plan. -/
def ihPlanArmed : InstrumentationHelper :=
  { (({ ihIdle with
        outputMode := OutputMode.explainAnalyzePlanOutput }).Setup
      quietSetupEnv 3 "SELECT _" false).1 with explainPlan := some () }

/-- Witness for C7 at a concrete armed plan-mode helper with one plan
line. -/
theorem explain_analyze_plan_rows_witness :
    let pt := if baseFinishEnv.deterministicExplainAnalyze then
      deterministicPhaseTimes else baseFinishEnv.livePhaseTimes
    let planRows := planRowsForExplainAnalyze ihPlanArmed.explainPlan pt
      baseFinishEnv.emitRows
    let rows := addedRows
      (ihPlanArmed.Finish baseFinishEnv "EXPLAIN" "EXPLAIN" none).2.1
    rows = planRows ++ ["", "WARNING: this statement is experimental!"] ∧
    rows.length = planRows.length + 2 ∧
    rows.getLast? = some "WARNING: this statement is experimental!" ∧
    rows.get? planRows.length = some "" :=
  explain_analyze_plan_rows ihPlanArmed baseFinishEnv "EXPLAIN" "EXPLAIN"
    rfl rfl rfl (fun _ => rfl)

/-! ## C8: failed sub-flows are skipped -/

/-- A sub-flow whose trace analysis fails: `AddTrace` or
`GetNetworkBytesSent` returns an error. -/
def flowFailed (f : FlowInfo) : Prop :=
  (∃ e, f.addTrace = Except.error e) ∨ (∃ e, f.networkBytes = Except.error e)

theorem flowBytes_eq_zero_of_failed {f : FlowInfo} (h : flowFailed f) :
    flowBytes f = 0 := by
  rcases h with ⟨e, he⟩ | ⟨e, he⟩ <;>
    (cases ha : f.addTrace
     all_goals simp_all [flowBytes])

/-- When the helper state is unarmed, `Finish` returns immediately. -/
theorem finish_unarmed_eq (ih : InstrumentationHelper) (env : FinishEnv)
    (ast sql : String) (retErr : Option String) (hsp : ih.sp = false) :
    ih.Finish env ast sql retErr = (ih, [], retErr) := by
  simp [InstrumentationHelper.Finish, hsp]

/-- C8: a sub-flow whose analysis fails contributes nothing to the
network-bytes total — removing it from the flow list changes neither the
total (the remaining flows still contribute theirs) nor any output of
`Finish`, in particular not the returned error. -/
theorem failed_flow_contributes_nothing (ih : InstrumentationHelper)
    (env : FinishEnv) (ast sql : String) (retErr : Option String)
    (pre post : List FlowInfo) (f : FlowInfo) (hf : flowFailed f) :
    computeNetworkBytesSent (pre ++ f :: post) =
      computeNetworkBytesSent (pre ++ post) ∧
    ih.Finish { env with flows := pre ++ f :: post } ast sql retErr =
      ih.Finish { env with flows := pre ++ post } ast sql retErr := by
  have hsum : computeNetworkBytesSent (pre ++ f :: post) =
      computeNetworkBytesSent (pre ++ post) := by
    unfold computeNetworkBytesSent
    rw [List.foldl_append, List.foldl_append, List.foldl_cons,
      flowBytes_eq_zero_of_failed hf]
    simp
  refine ⟨hsum, ?_⟩
  by_cases hsp : ih.sp = true
  · rw [finish_armed_eq _ _ _ _ _ hsp, finish_armed_eq _ _ _ _ _ hsp]
    have hbe : bundleSection ih { env with flows := pre ++ f :: post } ast
        retErr = bundleSection ih { env with flows := pre ++ post } ast
        retErr := rfl
    have hpe : ∀ r, planSection ih { env with flows := pre ++ f :: post } r =
        planSection ih { env with flows := pre ++ post } r := fun r => rfl
    have hse : statsSection ih { env with flows := pre ++ f :: post } =
        statsSection ih { env with flows := pre ++ post } := by
      unfold statsSection
      rw [show ({ env with flows := pre ++ f :: post } : FinishEnv).flows =
            pre ++ f :: post from rfl,
          show ({ env with flows := pre ++ post } : FinishEnv).flows =
            pre ++ post from rfl, hsum]
    rw [hbe, hpe, hse]
  · have hsp2 : ih.sp = false := by
      cases hv : ih.sp
      · rfl
      · exact absurd hv hsp
    rw [finish_unarmed_eq _ _ _ _ _ hsp2, finish_unarmed_eq _ _ _ _ _ hsp2]

/-- A sub-flow whose analysis succeeds with per-node byte counts 3 and 4. -/
def goodFlow : FlowInfo :=
  { addTrace := Except.ok (), networkBytes := Except.ok [3, 4] }

/-- A sub-flow whose `AddTrace` fails. -/
def badFlow : FlowInfo :=
  { addTrace := Except.error "missing stats", networkBytes := Except.ok [100] }

/-- Witness for C8 at a concrete flow list. -/
theorem failed_flow_contributes_nothing_witness :
    computeNetworkBytesSent ([goodFlow] ++ badFlow :: [goodFlow]) =
      computeNetworkBytesSent ([goodFlow] ++ [goodFlow]) ∧
    ihTraceArmed.Finish
        { baseFinishEnv with flows := [goodFlow] ++ badFlow :: [goodFlow] }
        "SELECT _" "SELECT 1" none =
      ihTraceArmed.Finish
        { baseFinishEnv with flows := [goodFlow] ++ [goodFlow] }
        "SELECT _" "SELECT 1" none :=
  failed_flow_contributes_nothing ihTraceArmed baseFinishEnv "SELECT _"
    "SELECT 1" none [goodFlow] [goodFlow] badFlow
    (Or.inl ⟨"missing stats", rfl⟩)
